import Mathlib

/-!
Shallow embedding of the EcoIndex scoring pipeline.

Sources embedded:
- `src/eco-percentile.js` (class `EcoPercentileCalculator`): eco-score
  aggregation, percentile ranking, direct estimation of water quality and
  greenspace with urban/coastal/regional adjustments and jitter.
- `src/spectral-indices.js` (class `SpectralIndicesCalculator`): NDVI
  computation and the index-to-score converters.
- `src/SPECTRAL_INDICES_GUIDE.md` (class `SimpleAIPredictor`): trend
  classification, annual-decline model, future-score projection and risk
  classification.
- `src/unnamed/part_002` (class `GreenspaceAnalyzer`) and
  `src/unnamed/part_003` (class `WaterQualityAnalyzer`): category buckets.

Numbers are embedded as rationals; the JS `Math.random()` draw is passed
explicitly as a parameter `r` ranging over `[0, 1]`.
-/

namespace EcoIndex

/-- Five-bucket rendering category shared by both categorizers. -/
inductive Category
  | excellent
  | good
  | moderate
  | poor
  | veryPoor
deriving DecidableEq

/-- Trend labels returned by `SimpleAIPredictor.calculateTrend`. -/
inductive Trend
  | declining
  | stable
  | atRisk
  | slightDecline
deriving DecidableEq

/-- Risk labels returned by `SimpleAIPredictor.calculateRiskLevel`. -/
inductive RiskLevel
  | critical
  | high
  | moderate
  | low
deriving DecidableEq

namespace EcoPercentileCalculator

/-- Embeds `calculateEcoScore` of `src/eco-percentile.js` lines 17-23. -/
def calculateEcoScore (waterQuality greenspace : ℚ) : ℚ :=
  max 0 (min 100 (waterQuality * (1/2) + greenspace * (1/2)))

/-- Embeds `isUrbanArea` of `src/eco-percentile.js` lines 217-224. -/
def isUrbanArea (lat lon : ℚ) : Bool :=
  decide ((40 < lat ∧ lat < 42 ∧ -74 < lon ∧ lon < -73) ∨
    (34 < lat ∧ lat < 35 ∧ -119 < lon ∧ lon < -118) ∨
    (41 < lat ∧ lat < 42 ∧ -88 < lon ∧ lon < -87) ∨
    (29 < lat ∧ lat < 30 ∧ -96 < lon ∧ lon < -95))

/-- Embeds `isCoastalArea` of `src/eco-percentile.js` lines 229-235. -/
def isCoastalArea (lat lon : ℚ) : Bool :=
  decide (|lon + 80| < 5 ∨ |lon + 122| < 5 ∨
    (25 < lat ∧ lat < 31 ∧ -85 < lon ∧ lon < -80))

/-- Embeds `estimateWaterQualitySync` of `src/eco-percentile.js` lines
144-166; `r` is the `Math.random()` draw. -/
def estimateWaterQualitySync (lat lon r : ℚ) : ℚ :=
  let quality : ℚ := 60
  let quality := if isUrbanArea lat lon then quality - 15 else quality
  let quality := if isCoastalArea lat lon then quality + 10 else quality
  let quality :=
    if 40 < lat ∧ lat < 50 ∧ -125 < lon ∧ lon < -100 then quality + 5
    else quality
  let quality := quality + (r - 1/2) * 20
  max 0 (min 100 quality)

/-- Embeds `estimateGreenspaceSync` of `src/eco-percentile.js` lines
190-212; `r` is the `Math.random()` draw of the branch taken. -/
def estimateGreenspaceSync (lat lon r : ℚ) : ℚ :=
  let coverage : ℚ := 40
  let coverage :=
    if 45 < lat ∧ lat < 50 ∧ -125 < lon ∧ lon < -100 then
      70 + (r - 1/2) * 20
    else if 32 < lat ∧ lat < 40 ∧ -120 < lon ∧ lon < -110 then
      15 + (r - 1/2) * 10
    else if 30 < lat ∧ lat < 36 ∧ -90 < lon ∧ lon < -75 then
      50 + (r - 1/2) * 20
    else coverage
  let coverage := if isUrbanArea lat lon then coverage - 20 else coverage
  max 0 (min 100 coverage)

/-- Embeds `calculatePercentile` of `src/eco-percentile.js` lines 76-83:
sort ascending, count entries at most `score`, scale to 100 and round. -/
def calculatePercentile (score : ℚ) (allScores : List ℚ) : ℤ :=
  if allScores.length = 0 then 50
  else
    let sorted := allScores.mergeSort (fun a b => decide (a ≤ b))
    let rank := (sorted.filter (fun s => decide (s ≤ score))).length
    round (((rank : ℚ) / (sorted.length : ℚ)) * 100)

end EcoPercentileCalculator

namespace SpectralIndicesCalculator

/-- Embeds `calculateNDVI` of `src/spectral-indices.js` lines 24-28. -/
def calculateNDVI (red nir : ℚ) : ℚ :=
  if nir + red = 0 then 0
  else max (-1) (min 1 ((nir - red) / (nir + red)))

/-- Embeds `ndviToGreenspace` of `src/spectral-indices.js` lines 210-218. -/
def ndviToGreenspace (ndvi : ℚ) : ℚ :=
  if ndvi < 0 then 0
  else if ndvi < 3/10 then ndvi * 50
  else if ndvi < 6/10 then 15 + (ndvi - 3/10) * 100
  else 45 + (ndvi - 6/10) * (275/2)

/-- Embeds `ndwiToWaterQuality` of `src/spectral-indices.js` lines
223-238. -/
def ndwiToWaterQuality (ndwi : ℚ) : ℚ :=
  let baseQuality := (ndwi + 1) * 50
  if ndwi > 1/2 then min 100 (baseQuality + 20)
  else if ndwi > 0 then baseQuality
  else max 0 (baseQuality - 20)

end SpectralIndicesCalculator

namespace SimpleAIPredictor

/-- Embeds `isUrbanArea` of `SimpleAIPredictor` in
`src/SPECTRAL_INDICES_GUIDE.md` (five city boxes, SF included). -/
def isUrbanArea (lat lon : ℚ) : Bool :=
  decide ((40 < lat ∧ lat < 42 ∧ -74 < lon ∧ lon < -73) ∨
    (34 < lat ∧ lat < 35 ∧ -119 < lon ∧ lon < -118) ∨
    (41 < lat ∧ lat < 42 ∧ -88 < lon ∧ lon < -87) ∨
    (29 < lat ∧ lat < 30 ∧ -96 < lon ∧ lon < -95) ∨
    (37 < lat ∧ lat < 38 ∧ -123 < lon ∧ lon < -122))

/-- Embeds `isSuburban` of `SimpleAIPredictor`. -/
def isSuburban (lat lon : ℚ) : Bool :=
  decide ((39 < lat ∧ lat < 41 ∧ -75 < lon ∧ lon < -73) ∨
    (33 < lat ∧ lat < 35 ∧ -118 < lon ∧ lon < -117) ∨
    (40 < lat ∧ lat < 42 ∧ -89 < lon ∧ lon < -87))

/-- Embeds `isProtectedArea` of `SimpleAIPredictor`. -/
def isProtectedArea (lat lon : ℚ) : Bool :=
  decide ((44 < lat ∧ lat < 50 ∧ -125 < lon ∧ lon < -110) ∨
    (36 < lat ∧ lat < 38 ∧ -120 < lon ∧ lon < -115) ∨
    (35 < lat ∧ lat < 37 ∧ -84 < lon ∧ lon < -82))

/-- Embeds `isCoastal` of `SimpleAIPredictor`. -/
def isCoastal (lat lon : ℚ) : Bool :=
  decide (|lon + 80| < 5 ∨ |lon + 122| < 5 ∨
    (25 < lat ∧ lat < 31 ∧ -85 < lon ∧ lon < -80))

/-- Embeds `calculateTrend` of `SimpleAIPredictor`: ordered predicate
checks, first match wins. -/
def calculateTrend (lat lon : ℚ) : Trend :=
  if isUrbanArea lat lon then .declining
  else if isProtectedArea lat lon then .stable
  else if isCoastal lat lon then .atRisk
  else .slightDecline

/-- Embeds `getRegionalTrendFactor` of `SimpleAIPredictor`. -/
def getRegionalTrendFactor (lat lon : ℚ) : ℚ :=
  if 34 < lat ∧ lat < 36 ∧ -119 < lon ∧ lon < -117 then -4/5
  else if 40 < lat ∧ lat < 42 ∧ -74 < lon ∧ lon < -73 then -7/10
  else if 45 < lat ∧ lat < 50 ∧ -125 < lon ∧ lon < -100 then -1/5
  else -1/2

/-- Embeds `getUrbanPressureFactor` of `SimpleAIPredictor`. -/
def getUrbanPressureFactor (lat lon : ℚ) : ℚ :=
  if isUrbanArea lat lon then -6/5
  else if isSuburban lat lon then -4/5
  else -3/10

/-- Embeds `calculateAnnualDecline` of `SimpleAIPredictor`. -/
def calculateAnnualDecline (trend : Trend) (regionalFactor urbanPressure : ℚ) : ℚ :=
  let baseDecline : ℚ :=
    match trend with
    | .declining => -3/2
    | .atRisk => -1
    | .slightDecline => -1/2
    | .stable => -1/10
  baseDecline + regionalFactor + urbanPressure

/-- Embeds `calculateRiskLevel` of `SimpleAIPredictor`. -/
def calculateRiskLevel (currentScore predictedScore yearsAhead : ℚ) : RiskLevel :=
  let decline := currentScore - predictedScore
  let declineRate := decline / yearsAhead
  if predictedScore < 30 ∨ declineRate > 2 then .critical
  else if predictedScore < 50 ∨ declineRate > 3/2 then .high
  else if declineRate > 1/2 then .moderate
  else .low

/-- Embeds the predicted-score clamp of
`SimpleAIPredictor.predictFutureEcoScore`. -/
def predictFutureEcoScore (currentScore lat lon yearsAhead : ℚ) : ℚ :=
  let annualDecline := calculateAnnualDecline (calculateTrend lat lon)
    (getRegionalTrendFactor lat lon) (getUrbanPressureFactor lat lon)
  max 0 (min 100 (currentScore + annualDecline * yearsAhead))

end SimpleAIPredictor

namespace GreenspaceAnalyzer

/-- Embeds `getGreenspaceCategory` of `src/unnamed/part_002` lines
393-399: thresholds 60/40/20/10. -/
def getGreenspaceCategory (coverage : ℚ) : Category :=
  if coverage ≥ 60 then .excellent
  else if coverage ≥ 40 then .good
  else if coverage ≥ 20 then .moderate
  else if coverage ≥ 10 then .poor
  else .veryPoor

end GreenspaceAnalyzer

namespace WaterQualityAnalyzer

/-- Embeds `getQualityCategory` of `src/unnamed/part_003` lines 111-117:
thresholds 80/60/40/20. -/
def getQualityCategory (index : ℚ) : Category :=
  if index ≥ 80 then .excellent
  else if index ≥ 60 then .good
  else if index ≥ 40 then .moderate
  else if index ≥ 20 then .poor
  else .veryPoor

end WaterQualityAnalyzer

/-- Modelled from the spec's category sentence: the 5-bucket scale taken at
descending thresholds `a > b > c > d`. -/
def categoryAtThresholds (a b c d s : ℚ) : Category :=
  if a ≤ s then .excellent
  else if b ≤ s then .good
  else if c ≤ s then .moderate
  else if d ≤ s then .poor
  else .veryPoor

/-- Modelled from the spec's trend table: base annual decline per trend. -/
def baseDeclineForTrend : Trend → ℚ
  | .declining => -3/2
  | .atRisk => -1
  | .slightDecline => -1/2
  | .stable => -1/10

/-- Modelled from the spec's NDVI conversion, with its explicit clamp on
the top segment. -/
def specNdviGreenspace (ndvi : ℚ) : ℚ :=
  if ndvi < 0 then 0
  else if ndvi < 3/10 then ndvi * 50
  else if ndvi < 6/10 then 15 + (ndvi - 3/10) * 100
  else min 100 (45 + (ndvi - 6/10) * (275/2))

/-- Modelled from the spec's NDWI conversion: base shifted up, kept, or
shifted down by the sign regions of the index. -/
def specNdwiWaterQuality (ndwi : ℚ) : ℚ :=
  let base := (ndwi + 1) * 50
  if 1/2 < ndwi then min 100 (base + 20)
  else if 0 < ndwi ∧ ndwi ≤ 1/2 then base
  else max 0 (base - 20)

/-- C5: the eco score is the clamped 50/50 blend of water quality and
greenspace, and in particular the blend of 80 and 40 is 60. -/
theorem calculateEcoScore_spec :
    (∀ waterQuality greenspace : ℚ,
      EcoPercentileCalculator.calculateEcoScore waterQuality greenspace =
        max 0 (min 100 (waterQuality * (1/2) + greenspace * (1/2)))) ∧
    EcoPercentileCalculator.calculateEcoScore 80 40 = 60 := by
  refine ⟨fun _ _ => rfl, ?_⟩
  norm_num [EcoPercentileCalculator.calculateEcoScore]

/-- C10: on an empty batch the percentile function returns 50 for every
score, rather than failing or returning 0. -/
theorem calculatePercentile_empty (score : ℚ) :
    EcoPercentileCalculator.calculatePercentile score [] = 50 := rfl

/-- C8: NDVI returns 0 when the denominator `nir + red` vanishes and the
clamped band ratio otherwise, and at red = 0.15, nir = 0.225 it is 0.2
within tolerance 1e-9. -/
theorem calculateNDVI_spec :
    (∀ red nir : ℚ, nir + red = 0 →
      SpectralIndicesCalculator.calculateNDVI red nir = 0) ∧
    (∀ red nir : ℚ, nir + red ≠ 0 →
      SpectralIndicesCalculator.calculateNDVI red nir =
        max (-1) (min 1 ((nir - red) / (nir + red)))) ∧
    |SpectralIndicesCalculator.calculateNDVI (3/20) (9/40) - 1/5| ≤
      1/1000000000 := by
  refine ⟨fun red nir h => ?_, fun red nir h => ?_, ?_⟩
  · simp [SpectralIndicesCalculator.calculateNDVI, h]
  · simp [SpectralIndicesCalculator.calculateNDVI, h]
  · norm_num [SpectralIndicesCalculator.calculateNDVI]

/-- C8 witness: concrete instantiations of both guarded branches. -/
theorem calculateNDVI_spec_witness :
    ((1 : ℚ) + (-1) = 0 ∧ SpectralIndicesCalculator.calculateNDVI (-1) 1 = 0) ∧
    ((9/40 : ℚ) + 3/20 ≠ 0 ∧
      SpectralIndicesCalculator.calculateNDVI (3/20) (9/40) =
        max (-1) (min 1 (((9/40 : ℚ) - 3/20) / (9/40 + 3/20)))) :=
  ⟨⟨by norm_num, calculateNDVI_spec.1 (-1) 1 (by norm_num)⟩,
   ⟨by norm_num, calculateNDVI_spec.2.1 (3/20) (9/40) (by norm_num)⟩⟩

/-- C2 counterexample: the greenspace categorizer already answers
Excellent at 60, below the claimed 80 threshold. -/
theorem getGreenspaceCategory_cex :
    GreenspaceAnalyzer.getGreenspaceCategory 60 = Category.excellent ∧
    ¬((60 : ℚ) ≥ 80) := by
  constructor
  · norm_num [GreenspaceAnalyzer.getGreenspaceCategory]
  · norm_num

/-- C2 amended: the water-quality categorizer uses the bucket thresholds
80/60/40/20 while the greenspace categorizer uses 60/40/20/10. -/
theorem category_thresholds_spec (s : ℚ) :
    WaterQualityAnalyzer.getQualityCategory s =
      categoryAtThresholds 80 60 40 20 s ∧
    GreenspaceAnalyzer.getGreenspaceCategory s =
      categoryAtThresholds 60 40 20 10 s := by
  constructor <;>
    simp only [WaterQualityAnalyzer.getQualityCategory,
      GreenspaceAnalyzer.getGreenspaceCategory, categoryAtThresholds,
      ge_iff_le]

/-- C3: on the index domain [-1, 1] both converters agree with the spec's
piecewise maps and land in [0, 100]. -/
theorem index_converters_spec (x : ℚ) (h1 : -1 ≤ x) (h2 : x ≤ 1) :
    SpectralIndicesCalculator.ndviToGreenspace x = specNdviGreenspace x ∧
    SpectralIndicesCalculator.ndwiToWaterQuality x = specNdwiWaterQuality x ∧
    (0 ≤ SpectralIndicesCalculator.ndviToGreenspace x ∧
      SpectralIndicesCalculator.ndviToGreenspace x ≤ 100) ∧
    (0 ≤ SpectralIndicesCalculator.ndwiToWaterQuality x ∧
      SpectralIndicesCalculator.ndwiToWaterQuality x ≤ 100) := by
  refine ⟨?_, ?_, ?_, ?_⟩
  · simp only [SpectralIndicesCalculator.ndviToGreenspace, specNdviGreenspace]
    split_ifs with ha hb hc
    · rfl
    · rfl
    · rfl
    · rw [min_eq_right (by linarith)]
  · simp only [SpectralIndicesCalculator.ndwiToWaterQuality,
      specNdwiWaterQuality, gt_iff_lt]
    split_ifs with ha hb hc hd
    · rfl
    · rfl
    · exact absurd ⟨hb, le_of_not_lt ha⟩ hc
    · exact absurd hd.1 hb
    · rfl
  · simp only [SpectralIndicesCalculator.ndviToGreenspace]
    split_ifs with ha hb hc <;> constructor <;> linarith
  · simp only [SpectralIndicesCalculator.ndwiToWaterQuality, gt_iff_lt]
    split_ifs with ha hb
    · exact ⟨le_min (by norm_num) (by linarith), min_le_left _ _⟩
    · constructor <;> linarith
    · exact ⟨le_max_left _ _, max_le (by norm_num) (by linarith)⟩

/-- C3 witness: both converter facts instantiated at index 0. -/
theorem index_converters_spec_witness :
    (-1 : ℚ) ≤ 0 ∧ (0 : ℚ) ≤ 1 ∧
    (SpectralIndicesCalculator.ndviToGreenspace 0 = specNdviGreenspace 0 ∧
      SpectralIndicesCalculator.ndwiToWaterQuality 0 =
        specNdwiWaterQuality 0 ∧
      (0 ≤ SpectralIndicesCalculator.ndviToGreenspace 0 ∧
        SpectralIndicesCalculator.ndviToGreenspace 0 ≤ 100) ∧
      (0 ≤ SpectralIndicesCalculator.ndwiToWaterQuality 0 ∧
        SpectralIndicesCalculator.ndwiToWaterQuality 0 ≤ 100)) :=
  ⟨by norm_num, by norm_num,
    index_converters_spec 0 (by norm_num) (by norm_num)⟩

theorem nyc_point_urban : SimpleAIPredictor.isUrbanArea 41 (-147/2) = true := by
  simp only [SimpleAIPredictor.isUrbanArea, decide_eq_true_eq]
  norm_num

theorem sonoma_not_urban_eco :
    EcoPercentileCalculator.isUrbanArea (77/2) (-1229/10) = false := by
  simp only [EcoPercentileCalculator.isUrbanArea, decide_eq_false_iff_not]
  norm_num

theorem sonoma_coastal_eco :
    EcoPercentileCalculator.isCoastalArea (77/2) (-1229/10) = true := by
  simp only [EcoPercentileCalculator.isCoastalArea, decide_eq_true_eq]
  refine Or.inr (Or.inl ?_)
  rw [abs_lt]
  constructor <;> norm_num

theorem sonoma_not_urban_ai :
    SimpleAIPredictor.isUrbanArea (77/2) (-1229/10) = false := by
  simp only [SimpleAIPredictor.isUrbanArea, decide_eq_false_iff_not]
  norm_num

theorem sonoma_not_protected_ai :
    SimpleAIPredictor.isProtectedArea (77/2) (-1229/10) = false := by
  simp only [SimpleAIPredictor.isProtectedArea, decide_eq_false_iff_not]
  norm_num

theorem sonoma_coastal_ai :
    SimpleAIPredictor.isCoastal (77/2) (-1229/10) = true := by
  simp only [SimpleAIPredictor.isCoastal, decide_eq_true_eq]
  refine Or.inr (Or.inl ?_)
  rw [abs_lt]
  constructor <;> norm_num

theorem sonoma_trend_atRisk :
    SimpleAIPredictor.calculateTrend (77/2) (-1229/10) = Trend.atRisk := by
  simp [SimpleAIPredictor.calculateTrend, sonoma_not_urban_ai,
    sonoma_not_protected_ai, sonoma_coastal_ai]

theorem calculateAnnualDecline_eq (t : Trend) (r u : ℚ) :
    SimpleAIPredictor.calculateAnnualDecline t r u =
      baseDeclineForTrend t + r + u := by
  cases t <;> rfl

theorem baseDeclineForTrend_bounds (t : Trend) :
    -3/2 ≤ baseDeclineForTrend t ∧ baseDeclineForTrend t ≤ -1/10 := by
  cases t <;> norm_num [baseDeclineForTrend]

theorem getRegionalTrendFactor_bounds (lat lon : ℚ) :
    -4/5 ≤ SimpleAIPredictor.getRegionalTrendFactor lat lon ∧
    SimpleAIPredictor.getRegionalTrendFactor lat lon ≤ -1/5 := by
  unfold SimpleAIPredictor.getRegionalTrendFactor
  split_ifs <;> norm_num

theorem getUrbanPressureFactor_bounds (lat lon : ℚ) :
    -6/5 ≤ SimpleAIPredictor.getUrbanPressureFactor lat lon ∧
    SimpleAIPredictor.getUrbanPressureFactor lat lon ≤ -3/10 := by
  unfold SimpleAIPredictor.getUrbanPressureFactor
  split_ifs <;> norm_num

/-- C6: the trend classifier matches the spec's ordered predicate order,
the annual decline is the base decline for the trend plus the regional and
urban-pressure factors, and the predicted score is the clamped linear
projection. -/
theorem trend_model_spec (lat lon current years : ℚ) :
    (SimpleAIPredictor.isUrbanArea lat lon = true →
      SimpleAIPredictor.calculateTrend lat lon = Trend.declining) ∧
    (SimpleAIPredictor.isUrbanArea lat lon = false →
      SimpleAIPredictor.isProtectedArea lat lon = true →
      SimpleAIPredictor.calculateTrend lat lon = Trend.stable) ∧
    (SimpleAIPredictor.isUrbanArea lat lon = false →
      SimpleAIPredictor.isProtectedArea lat lon = false →
      SimpleAIPredictor.isCoastal lat lon = true →
      SimpleAIPredictor.calculateTrend lat lon = Trend.atRisk) ∧
    (SimpleAIPredictor.isUrbanArea lat lon = false →
      SimpleAIPredictor.isProtectedArea lat lon = false →
      SimpleAIPredictor.isCoastal lat lon = false →
      SimpleAIPredictor.calculateTrend lat lon = Trend.slightDecline) ∧
    (∀ t r u, SimpleAIPredictor.calculateAnnualDecline t r u =
      baseDeclineForTrend t + r + u) ∧
    SimpleAIPredictor.predictFutureEcoScore current lat lon years =
      max 0 (min 100 (current +
        SimpleAIPredictor.calculateAnnualDecline
          (SimpleAIPredictor.calculateTrend lat lon)
          (SimpleAIPredictor.getRegionalTrendFactor lat lon)
          (SimpleAIPredictor.getUrbanPressureFactor lat lon) * years)) := by
  refine ⟨fun hu => ?_, fun hu hp => ?_, fun hu hp hc => ?_,
    fun hu hp hc => ?_, calculateAnnualDecline_eq, rfl⟩
  · simp [SimpleAIPredictor.calculateTrend, hu]
  · simp [SimpleAIPredictor.calculateTrend, hu, hp]
  · simp [SimpleAIPredictor.calculateTrend, hu, hp, hc]
  · simp [SimpleAIPredictor.calculateTrend, hu, hp, hc]

/-- C6 witness: the urban branch at an NYC-box point. -/
theorem trend_model_spec_witness :
    SimpleAIPredictor.isUrbanArea 41 (-147/2) = true ∧
    SimpleAIPredictor.calculateTrend 41 (-147/2) = Trend.declining :=
  ⟨nyc_point_urban, (trend_model_spec 41 (-147/2) 0 0).1 nyc_point_urban⟩

/-- C7: risk classification is characterized by the strict thresholds
30/2, 50/1.5 and 0.5 on predicted score and decline rate, with 29.9
critical and exactly 30 at rate at most 2 only high. -/
theorem calculateRiskLevel_spec (c p y : ℚ) (hy : 0 < y) :
    (SimpleAIPredictor.calculateRiskLevel c p y = RiskLevel.critical ↔
      (p < 30 ∨ (c - p) / y > 2)) ∧
    (SimpleAIPredictor.calculateRiskLevel c p y = RiskLevel.high ↔
      (¬(p < 30 ∨ (c - p) / y > 2) ∧ (p < 50 ∨ (c - p) / y > 3/2))) ∧
    (SimpleAIPredictor.calculateRiskLevel c p y = RiskLevel.moderate ↔
      (¬(p < 30 ∨ (c - p) / y > 2) ∧ ¬(p < 50 ∨ (c - p) / y > 3/2) ∧
        (c - p) / y > 1/2)) ∧
    (SimpleAIPredictor.calculateRiskLevel c p y = RiskLevel.low ↔
      (¬(p < 30 ∨ (c - p) / y > 2) ∧ ¬(p < 50 ∨ (c - p) / y > 3/2) ∧
        ¬((c - p) / y > 1/2))) ∧
    SimpleAIPredictor.calculateRiskLevel c (299/10) y = RiskLevel.critical ∧
    ((c - 30) / y ≤ 2 →
      SimpleAIPredictor.calculateRiskLevel c 30 y = RiskLevel.high) := by
  have hnc : ∀ q : ℚ, q ≤ 2 → ¬((30 : ℚ) < 30 ∨ q > 2) := by
    rintro q hq (h | h)
    · exact absurd h (by norm_num)
    · linarith
  refine ⟨?_, ?_, ?_, ?_, ?_, fun h30 => ?_⟩
  · simp only [SimpleAIPredictor.calculateRiskLevel]
    split_ifs with h1 h2 h3 <;> simp_all
  · simp only [SimpleAIPredictor.calculateRiskLevel]
    split_ifs with h1 h2 h3 <;> simp_all
  · simp only [SimpleAIPredictor.calculateRiskLevel]
    split_ifs with h1 h2 h3 <;> simp_all
  · simp only [SimpleAIPredictor.calculateRiskLevel]
    split_ifs with h1 h2 h3 <;> simp_all
  · simp only [SimpleAIPredictor.calculateRiskLevel]
    rw [if_pos (Or.inl (by norm_num : (299/10 : ℚ) < 30))]
  · simp only [SimpleAIPredictor.calculateRiskLevel]
    rw [if_neg (hnc _ h30), if_pos (Or.inl (by norm_num : (30 : ℚ) < 50))]

/-- C7 witness: the characterization at current 50, predicted 40,
fifteen years ahead. -/
theorem calculateRiskLevel_spec_witness :
    (0 : ℚ) < 15 ∧
    ((SimpleAIPredictor.calculateRiskLevel 50 40 15 = RiskLevel.critical ↔
      ((40 : ℚ) < 30 ∨ ((50 : ℚ) - 40) / 15 > 2)) ∧
    (SimpleAIPredictor.calculateRiskLevel 50 40 15 = RiskLevel.high ↔
      (¬((40 : ℚ) < 30 ∨ ((50 : ℚ) - 40) / 15 > 2) ∧
        ((40 : ℚ) < 50 ∨ ((50 : ℚ) - 40) / 15 > 3/2))) ∧
    (SimpleAIPredictor.calculateRiskLevel 50 40 15 = RiskLevel.moderate ↔
      (¬((40 : ℚ) < 30 ∨ ((50 : ℚ) - 40) / 15 > 2) ∧
        ¬((40 : ℚ) < 50 ∨ ((50 : ℚ) - 40) / 15 > 3/2) ∧
        ((50 : ℚ) - 40) / 15 > 1/2)) ∧
    (SimpleAIPredictor.calculateRiskLevel 50 40 15 = RiskLevel.low ↔
      (¬((40 : ℚ) < 30 ∨ ((50 : ℚ) - 40) / 15 > 2) ∧
        ¬((40 : ℚ) < 50 ∨ ((50 : ℚ) - 40) / 15 > 3/2) ∧
        ¬(((50 : ℚ) - 40) / 15 > 1/2))) ∧
    SimpleAIPredictor.calculateRiskLevel 50 (299/10) 15 = RiskLevel.critical ∧
    (((50 : ℚ) - 30) / 15 ≤ 2 →
      SimpleAIPredictor.calculateRiskLevel 50 30 15 = RiskLevel.high)) :=
  ⟨by norm_num, calculateRiskLevel_spec 50 40 15 (by norm_num)⟩

/-- C9: the annual decline always lies in [-3.5, -0.6], hence is strictly
negative, and the projected score never exceeds the current score. -/
theorem annualDecline_negative_spec (lat lon current years : ℚ)
    (h0 : 0 ≤ current) (h100 : current ≤ 100) (hy : 1 ≤ years) :
    (-7/2 ≤ SimpleAIPredictor.calculateAnnualDecline
        (SimpleAIPredictor.calculateTrend lat lon)
        (SimpleAIPredictor.getRegionalTrendFactor lat lon)
        (SimpleAIPredictor.getUrbanPressureFactor lat lon) ∧
      SimpleAIPredictor.calculateAnnualDecline
        (SimpleAIPredictor.calculateTrend lat lon)
        (SimpleAIPredictor.getRegionalTrendFactor lat lon)
        (SimpleAIPredictor.getUrbanPressureFactor lat lon) ≤ -3/5) ∧
    SimpleAIPredictor.calculateAnnualDecline
      (SimpleAIPredictor.calculateTrend lat lon)
      (SimpleAIPredictor.getRegionalTrendFactor lat lon)
      (SimpleAIPredictor.getUrbanPressureFactor lat lon) < 0 ∧
    SimpleAIPredictor.predictFutureEcoScore current lat lon years ≤
      current := by
  obtain ⟨hb1, hb2⟩ :=
    baseDeclineForTrend_bounds (SimpleAIPredictor.calculateTrend lat lon)
  obtain ⟨hr1, hr2⟩ := getRegionalTrendFactor_bounds lat lon
  obtain ⟨hp1, hp2⟩ := getUrbanPressureFactor_bounds lat lon
  rw [calculateAnnualDecline_eq]
  set d := baseDeclineForTrend (SimpleAIPredictor.calculateTrend lat lon) +
    SimpleAIPredictor.getRegionalTrendFactor lat lon +
    SimpleAIPredictor.getUrbanPressureFactor lat lon with hd
  have hdlo : -7/2 ≤ d := by rw [hd]; linarith
  have hdhi : d ≤ -3/5 := by rw [hd]; linarith
  refine ⟨⟨hdlo, hdhi⟩, by linarith, ?_⟩
  have hpred : SimpleAIPredictor.predictFutureEcoScore current lat lon years =
      max 0 (min 100 (current +
        SimpleAIPredictor.calculateAnnualDecline
          (SimpleAIPredictor.calculateTrend lat lon)
          (SimpleAIPredictor.getRegionalTrendFactor lat lon)
          (SimpleAIPredictor.getUrbanPressureFactor lat lon) * years)) := rfl
  rw [hpred, calculateAnnualDecline_eq, ← hd]
  have hmul : d * years ≤ d * 1 :=
    mul_le_mul_of_nonpos_left hy (by linarith)
  refine max_le h0 (le_trans (min_le_right _ _) (by linarith))

/-- C9 witness: the invariant at the origin with score 50 over 15
years. -/
theorem annualDecline_negative_spec_witness :
    ((0 : ℚ) ≤ 50 ∧ (50 : ℚ) ≤ 100 ∧ (1 : ℚ) ≤ 15) ∧
    ((-7/2 ≤ SimpleAIPredictor.calculateAnnualDecline
        (SimpleAIPredictor.calculateTrend 0 0)
        (SimpleAIPredictor.getRegionalTrendFactor 0 0)
        (SimpleAIPredictor.getUrbanPressureFactor 0 0) ∧
      SimpleAIPredictor.calculateAnnualDecline
        (SimpleAIPredictor.calculateTrend 0 0)
        (SimpleAIPredictor.getRegionalTrendFactor 0 0)
        (SimpleAIPredictor.getUrbanPressureFactor 0 0) ≤ -3/5) ∧
    SimpleAIPredictor.calculateAnnualDecline
      (SimpleAIPredictor.calculateTrend 0 0)
      (SimpleAIPredictor.getRegionalTrendFactor 0 0)
      (SimpleAIPredictor.getUrbanPressureFactor 0 0) < 0 ∧
    SimpleAIPredictor.predictFutureEcoScore 50 0 0 15 ≤ 50) :=
  ⟨⟨by norm_num, by norm_num, by norm_num⟩,
    annualDecline_negative_spec 0 0 50 15 (by norm_num) (by norm_num)
      (by norm_num)⟩

theorem mergeSort_filter_length (batch : List ℚ) (p : ℚ → Bool) :
    ((batch.mergeSort (fun a b => decide (a ≤ b))).filter p).length =
      (batch.filter p).length :=
  ((List.mergeSort_perm batch (fun a b => decide (a ≤ b))).filter p).length_eq

/-- C4: on a non-empty batch the percentile of a member score is the
rounded share of scores at most it, the batch maximum gets 100, and a
unique minimum gets round(100/N). -/
theorem calculatePercentile_spec (batch : List ℚ) (s : ℚ)
    (hne : batch ≠ []) (hs : s ∈ batch) :
    EcoPercentileCalculator.calculatePercentile s batch =
      round ((100 * ((batch.filter (fun x => decide (x ≤ s))).length : ℚ)) /
        (batch.length : ℚ)) ∧
    ((∀ x ∈ batch, x ≤ s) →
      EcoPercentileCalculator.calculatePercentile s batch = 100) ∧
    ((∀ x ∈ batch, s ≤ x) → batch.count s = 1 →
      EcoPercentileCalculator.calculatePercentile s batch =
        round ((100 : ℚ) / (batch.length : ℚ))) := by
  have hlen : batch.length ≠ 0 := fun h => hne (List.length_eq_zero.mp h)
  have hlenQ : (batch.length : ℚ) ≠ 0 := Nat.cast_ne_zero.mpr hlen
  have hslen : (batch.mergeSort (fun a b => decide (a ≤ b))).length =
      batch.length :=
    (List.mergeSort_perm batch (fun a b => decide (a ≤ b))).length_eq
  have hbase : EcoPercentileCalculator.calculatePercentile s batch =
      round ((((batch.filter (fun x => decide (x ≤ s))).length : ℚ) /
        (batch.length : ℚ)) * 100) := by
    simp only [EcoPercentileCalculator.calculatePercentile]
    rw [if_neg hlen, mergeSort_filter_length, hslen]
  refine ⟨?_, fun hall => ?_, fun hmin hcount => ?_⟩
  · rw [hbase]
    congr 1
    ring
  · have hfull : batch.filter (fun x => decide (x ≤ s)) = batch :=
      List.filter_eq_self.mpr fun a ha => decide_eq_true (hall a ha)
    rw [hbase, hfull, div_self hlenQ, one_mul]
    norm_num [round_eq]
  · have hone : (batch.filter (fun x => decide (x ≤ s))).length = 1 := by
      have hcongr : ∀ a ∈ batch, (decide (a ≤ s)) = (a == s) := by
        intro a ha
        have hsa := hmin a ha
        by_cases h : a = s
        · subst h; simp
        · have hnle : ¬(a ≤ s) := fun hle => h (le_antisymm hle hsa)
          simp [h, hnle]
      rw [List.filter_congr hcongr, ← List.countP_eq_length_filter,
        ← List.count_eq_countP, hcount]
    rw [hbase, hone]
    congr 1
    push_cast
    ring

/-- C4 witness: the batch [1, 2, 3] with its maximum score 3. -/
theorem calculatePercentile_spec_witness :
    (([1, 2, 3] : List ℚ) ≠ [] ∧ (3 : ℚ) ∈ ([1, 2, 3] : List ℚ)) ∧
    (EcoPercentileCalculator.calculatePercentile 3 [1, 2, 3] =
      round ((100 * ((([1, 2, 3] : List ℚ).filter
        (fun x => decide (x ≤ 3))).length : ℚ)) /
        (([1, 2, 3] : List ℚ).length : ℚ)) ∧
    ((∀ x ∈ ([1, 2, 3] : List ℚ), x ≤ 3) →
      EcoPercentileCalculator.calculatePercentile 3 [1, 2, 3] = 100) ∧
    ((∀ x ∈ ([1, 2, 3] : List ℚ), 3 ≤ x) →
      ([1, 2, 3] : List ℚ).count 3 = 1 →
      EcoPercentileCalculator.calculatePercentile 3 [1, 2, 3] =
        round ((100 : ℚ) / (([1, 2, 3] : List ℚ).length : ℚ)))) :=
  ⟨⟨by simp, by simp⟩,
    calculatePercentile_spec [1, 2, 3] 3 (by simp) (by simp)⟩

/-- C1 counterexample: the location (38.5, -122.9) satisfies the source's
coastal predicate, the direct water estimate at the mid RNG draw is 70
rather than about 60, and the trend classifier answers at_risk rather
than slight_decline. -/
theorem sonoma_claim_cex :
    EcoPercentileCalculator.isCoastalArea (77/2) (-1229/10) = true ∧
    EcoPercentileCalculator.estimateWaterQualitySync (77/2) (-1229/10)
      (1/2) = 70 ∧
    SimpleAIPredictor.calculateTrend (77/2) (-1229/10) = Trend.atRisk := by
  refine ⟨sonoma_coastal_eco, ?_, sonoma_trend_atRisk⟩
  simp only [EcoPercentileCalculator.estimateWaterQualitySync,
    sonoma_not_urban_eco, sonoma_coastal_eco]
  norm_num [min_def, max_def]

/-- C1 amended: (38.5, -122.9) is non-urban but coastal, the direct water
estimate is 70 plus-or-minus the jitter, the direct greenspace estimate
is exactly 40, and the trend classifier answers at_risk. -/
theorem sonoma_location_spec (r : ℚ) (hr0 : 0 ≤ r) (hr1 : r ≤ 1) :
    EcoPercentileCalculator.isUrbanArea (77/2) (-1229/10) = false ∧
    EcoPercentileCalculator.isCoastalArea (77/2) (-1229/10) = true ∧
    |EcoPercentileCalculator.estimateWaterQualitySync (77/2) (-1229/10) r -
      70| ≤ 10 ∧
    EcoPercentileCalculator.estimateGreenspaceSync (77/2) (-1229/10) r =
      40 ∧
    SimpleAIPredictor.calculateTrend (77/2) (-1229/10) = Trend.atRisk := by
  have hu := sonoma_not_urban_eco
  have hc := sonoma_coastal_eco
  refine ⟨hu, hc, ?_, ?_, sonoma_trend_atRisk⟩
  · have hq : EcoPercentileCalculator.estimateWaterQualitySync (77/2)
        (-1229/10) r = max 0 (min 100 (60 + 10 + (r - 1/2) * 20)) := by
      simp only [EcoPercentileCalculator.estimateWaterQualitySync, hu, hc]
      norm_num
    rw [hq, min_eq_right (by linarith), max_eq_right (by linarith), abs_le]
    constructor <;> linarith
  · have hg : EcoPercentileCalculator.estimateGreenspaceSync (77/2)
        (-1229/10) r = max 0 (min 100 (40 : ℚ)) := by
      simp only [EcoPercentileCalculator.estimateGreenspaceSync, hu]
      norm_num
    rw [hg]
    norm_num

/-- C1 witness: the amended statement at the mid-range RNG draw. -/
theorem sonoma_location_spec_witness :
    ((0 : ℚ) ≤ 1/2 ∧ (1/2 : ℚ) ≤ 1) ∧
    (EcoPercentileCalculator.isUrbanArea (77/2) (-1229/10) = false ∧
    EcoPercentileCalculator.isCoastalArea (77/2) (-1229/10) = true ∧
    |EcoPercentileCalculator.estimateWaterQualitySync (77/2) (-1229/10)
      (1/2) - 70| ≤ 10 ∧
    EcoPercentileCalculator.estimateGreenspaceSync (77/2) (-1229/10)
      (1/2) = 40 ∧
    SimpleAIPredictor.calculateTrend (77/2) (-1229/10) = Trend.atRisk) :=
  ⟨⟨by norm_num, by norm_num⟩,
    sonoma_location_spec (1/2) (by norm_num) (by norm_num)⟩

end EcoIndex
